import Mathlib

/-!
Shallow embedding of `relaunch` (neosmart/relaunch, src/main.rs).

The program is a process supervisor: `relaunch` repeatedly spawns a target
process, waits for it to exit, classifies the exit status, and decides —
according to a `MonitorOptions` policy — whether to restart it. External
effects (opening the redirect files, spawning, the child's exit status, the
pid reported by the OS) are modelled by a finite list of per-iteration
environments `IterEnv`; one list element is consumed per loop iteration.
If the list runs out before the loop reaches a `break` or an error, the
run is reported as unfinished (`result = none`).
-/

namespace Relaunch

/-- Rust `std::process::ExitStatus`, modelled as the spec's tagged variant:
a numeric exit code, or termination by signal (no code). -/
inductive ExitStatus where
  | exited (code : Int)
  | signaled
deriving DecidableEq

/-- Rust `ExitStatus::success()`: true exactly when the exit code is 0
(a signal-terminated process is never a success). -/
def ExitStatus.success : ExitStatus → Bool
  | .exited c => c == 0
  | .signaled => false

/-- Rust `ExitStatus::code()`: `Some(code)` for a normal exit, `None` for a
signal-terminated process. -/
def ExitStatus.code : ExitStatus → Option Int
  | .exited c => some c
  | .signaled => none

/-- `struct LaunchOptions` from main.rs: target executable and pass-through
arguments. -/
structure LaunchOptions where
  exe : String
  args : List String
deriving DecidableEq

/-- `struct MonitorOptions` from main.rs. Paths are kept as strings; only
their presence matters to the loop (the success of the actual file opens is
part of the per-iteration environment). -/
structure MonitorOptions where
  max_restarts : Option Int
  restart_always : Bool
  restart_interval : Option Int
  stdout : Option String
  stderr : Option String
  log : Option String
deriving DecidableEq

/-- `MonitorOptions::new()` from main.rs: the default policy. -/
def MonitorOptions.new : MonitorOptions :=
  { max_restarts := none
    restart_always := false
    restart_interval := none
    stdout := none
    stderr := none
    log := none }

/-- `enum RelaunchResult` from main.rs. -/
inductive RelaunchResult where
  | ok
  | okAfterRestart (times : Int)
  | restartCountExceeded (attempts : Int)
deriving DecidableEq

/-- `enum RelaunchError` from main.rs (the wrapped `io::Error` payloads carry
no information the loop consults, so they are dropped). -/
inductive RelaunchError where
  | launchErr
  | stdoutErr
  | stderrErr
deriving DecidableEq

/-- One log line emitted by the loop through the `logger` closure. The
format strings in main.rs are constants, so each line is determined by the
event constructor and its payload. -/
inductive LogEvent where
  | monitoring (exe : String) (pid : Nat)
  | exitedCode (exe : String) (code : Int)
  | exitedSignal (exe : String)
  | exitedNormally (exe : String)
  | monitoringComplete (exe : String)
  | maxRestartsExceeded (exe : String)
deriving DecidableEq

/-- The environment one loop iteration interacts with: whether the stdout /
stderr redirect files open successfully (consulted only when the
corresponding path is configured), whether `cmd.spawn()` succeeds, the pid
the OS assigns, and the exit status `child.wait()` reports. -/
structure IterEnv where
  stdout_open_ok : Bool
  stderr_open_ok : Bool
  spawn_ok : Bool
  pid : Nat
  status : ExitStatus
deriving DecidableEq

/-- The mutable loop-local state of `relaunch`: `fail_count`, `start_count`
and the recorded `exit_code` (`none` both initially and for a signal). -/
structure LoopState where
  fail_count : Int
  start_count : Int
  exit_code : Option Int
deriving DecidableEq

/-- How a single loop iteration ends: abort with an error (`?` operators),
`break`, or fall through to the next iteration. -/
inductive StepResult where
  | err (e : RelaunchError) (log : List LogEvent)
  | brk (s : LoopState) (log : List LogEvent)
  | cont (s : LoopState) (log : List LogEvent)
deriving DecidableEq

/-- The failure log line of main.rs lines 209-212: exit code when present,
signal otherwise. -/
def failEvent (exe : String) (st : ExitStatus) : LogEvent :=
  match st.code with
  | some c => .exitedCode exe c
  | none => .exitedSignal exe

/-- The restart decision of main.rs lines 226-229, evaluated after
`start_count` has been incremented for the current attempt. -/
def shouldRestart (mop : MonitorOptions) (start_count : Int) : Bool :=
  match mop.max_restarts with
  | none => true
  | some x => x > start_count - 1

/-- The part of one loop iteration after a successful spawn (main.rs lines
203-234): log the new child, increment `start_count`, wait, classify the
status, record the exit code, and decide break / continue. On a success
with `restart_always == false` the loop breaks BEFORE `exit_code` is
assigned (line 219 precedes line 224), so the recorded code is left at its
previous value. -/
def afterSpawn (lop : LaunchOptions) (mop : MonitorOptions) (s : LoopState)
    (env : IterEnv) : StepResult :=
  let log1 : List LogEvent := [.monitoring lop.exe env.pid]
  let s1 : LoopState := { s with start_count := s.start_count + 1 }
  if env.status.success then
    if !mop.restart_always then
      .brk s1 (log1 ++ [.exitedNormally lop.exe, .monitoringComplete lop.exe])
    else
      let s3 : LoopState := { s1 with exit_code := env.status.code }
      if !(shouldRestart mop s3.start_count) then
        .brk s3 (log1 ++ [.exitedNormally lop.exe, .maxRestartsExceeded lop.exe])
      else
        .cont s3 (log1 ++ [.exitedNormally lop.exe])
  else
    let s2 : LoopState := { s1 with fail_count := s1.fail_count + 1 }
    let s3 : LoopState := { s2 with exit_code := env.status.code }
    if !(shouldRestart mop s3.start_count) then
      .brk s3 (log1 ++ [failEvent lop.exe env.status, .maxRestartsExceeded lop.exe])
    else
      .cont s3 (log1 ++ [failEvent lop.exe env.status])

/-- One full iteration of the `loop` in `relaunch` (main.rs lines 189-235):
open the stdout redirect (when configured), then the stderr redirect, then
spawn; each failure aborts the whole loop with the corresponding error and
no child is spawned in that iteration. -/
def iterStep (lop : LaunchOptions) (mop : MonitorOptions) (s : LoopState)
    (env : IterEnv) : StepResult :=
  if mop.stdout.isSome && !env.stdout_open_ok then
    .err .stdoutErr []
  else if mop.stderr.isSome && !env.stderr_open_ok then
    .err .stderrErr []
  else if !env.spawn_ok then
    .err .launchErr []
  else
    afterSpawn lop mop s env

/-- How the whole loop ended: via `break`, via an error return, or by
exhausting the supplied environments (the real loop would keep running). -/
inductive LoopExit where
  | broke (s : LoopState)
  | errored (e : RelaunchError) (s : LoopState)
  | ranOut (s : LoopState)
deriving DecidableEq

/-- The observable trace of the loop: how it ended, how many children were
actually spawned, how many iterations ran, and the emitted log lines. -/
structure LoopTrace where
  exit : LoopExit
  spawns : Nat
  iters : Nat
  log : List LogEvent
deriving DecidableEq

/-- The supervision loop of `relaunch`, consuming one `IterEnv` per
iteration. An iteration ending in an error spawned no child; `brk` / `cont`
iterations each spawned exactly one. -/
def runLoop (lop : LaunchOptions) (mop : MonitorOptions) (s : LoopState) :
    List IterEnv → LoopTrace
  | [] => ⟨.ranOut s, 0, 0, []⟩
  | env :: rest =>
    match iterStep lop mop s env with
    | .err e log => ⟨.errored e s, 0, 1, log⟩
    | .brk s' log => ⟨.broke s', 1, 1, log⟩
    | .cont s' log =>
      let t := runLoop lop mop s' rest
      ⟨t.exit, 1 + t.spawns, 1 + t.iters, log ++ t.log⟩

/-- The outcome derivation after the loop (main.rs lines 237-246). -/
def deriveResult (mop : MonitorOptions) (s : LoopState) : RelaunchResult :=
  if mop.restart_always then
    .restartCountExceeded s.fail_count
  else if s.fail_count == 0 then
    .ok
  else if s.exit_code == some 0 then
    .okAfterRestart s.fail_count
  else
    .restartCountExceeded s.fail_count

/-- The loop state at the moment the loop ended (for an error return, the
state from before the failed iteration, which the iteration left
untouched). -/
def LoopExit.state : LoopExit → LoopState
  | .broke s => s
  | .errored _ s => s
  | .ranOut s => s

instance : DecidableEq (Except RelaunchError RelaunchResult) := fun a b =>
  match a, b with
  | .ok x, .ok y => decidable_of_iff (x = y) (by simp)
  | .ok _, .error _ => isFalse (by simp)
  | .error _, .ok _ => isFalse (by simp)
  | .error x, .error y => decidable_of_iff (x = y) (by simp)

/-- The observable trace of one call to `relaunch`: the returned value
(`none` when the environment list ran out before the loop ended), the final
counters, the number of spawned children, iterations, and log lines. -/
structure RunTrace where
  result : Option (Except RelaunchError RelaunchResult)
  fail_count : Int
  start_count : Int
  spawns : Nat
  iters : Nat
  log : List LogEvent
deriving DecidableEq

/-- The value `relaunch` returns for each way the loop can end: the derived
outcome after a `break` (main.rs lines 237-246), the propagated error for a
`?`-return, and `none` when the supplied environments ran out first. -/
def exitResult (mop : MonitorOptions) :
    LoopExit → Option (Except RelaunchError RelaunchResult)
  | .broke s => some (.ok (deriveResult mop s))
  | .errored e _ => some (.error e)
  | .ranOut _ => none

/-- `fn relaunch` (main.rs lines 179-247): run the loop from the initial
state `fail_count = 0`, `start_count = 0`, `exit_code = None`, then derive
the result. -/
def relaunch (lop : LaunchOptions) (mop : MonitorOptions)
    (envs : List IterEnv) : RunTrace :=
  let t := runLoop lop mop ⟨0, 0, none⟩ envs
  ⟨exitResult mop t.exit, t.exit.state.fail_count, t.exit.state.start_count,
    t.spawns, t.iters, t.log⟩

/-- The process exit code `main` derives from `relaunch`'s return value
(main.rs lines 140-156). -/
def processExitCode : Except RelaunchError RelaunchResult → Int
  | .ok .ok => 0
  | .ok (.okAfterRestart _) => 0
  | .ok (.restartCountExceeded x) => x
  | .error _ => -1

/-- An iteration environment in which both redirect opens and the spawn
succeed. -/
def IterEnv.allOk (e : IterEnv) : Prop :=
  e.stdout_open_ok = true ∧ e.stderr_open_ok = true ∧ e.spawn_ok = true

instance (e : IterEnv) : Decidable e.allOk := by
  unfold IterEnv.allOk
  infer_instance

/-- The counter invariant of the spec: `start_count ≥ fail_count ≥ 0`. -/
def LoopState.inv (s : LoopState) : Prop :=
  0 ≤ s.fail_count ∧ s.fail_count ≤ s.start_count

/-- A fully successful iteration environment with the given exit status. -/
def okEnv (st : ExitStatus) : IterEnv :=
  ⟨true, true, true, 100, st⟩

lemma relaunch_result (lop : LaunchOptions) (mop : MonitorOptions)
    (envs : List IterEnv) :
    (relaunch lop mop envs).result
      = exitResult mop (runLoop lop mop ⟨0, 0, none⟩ envs).exit := rfl

lemma relaunch_fail_count (lop : LaunchOptions) (mop : MonitorOptions)
    (envs : List IterEnv) :
    (relaunch lop mop envs).fail_count
      = (runLoop lop mop ⟨0, 0, none⟩ envs).exit.state.fail_count := rfl

lemma relaunch_start_count (lop : LaunchOptions) (mop : MonitorOptions)
    (envs : List IterEnv) :
    (relaunch lop mop envs).start_count
      = (runLoop lop mop ⟨0, 0, none⟩ envs).exit.state.start_count := rfl

lemma relaunch_spawns (lop : LaunchOptions) (mop : MonitorOptions)
    (envs : List IterEnv) :
    (relaunch lop mop envs).spawns
      = (runLoop lop mop ⟨0, 0, none⟩ envs).spawns := rfl

lemma relaunch_iters (lop : LaunchOptions) (mop : MonitorOptions)
    (envs : List IterEnv) :
    (relaunch lop mop envs).iters
      = (runLoop lop mop ⟨0, 0, none⟩ envs).iters := rfl

lemma code_ne_some_zero_of_not_success (st : ExitStatus)
    (h : st.success = false) : st.code ≠ some 0 := by
  cases st with
  | exited c =>
    simp [ExitStatus.success] at h
    simp [ExitStatus.code, h]
  | signaled => simp [ExitStatus.code]

lemma afterSpawn_clean_brk (lop : LaunchOptions) (mop : MonitorOptions)
    (s : LoopState) (env : IterEnv)
    (h1 : env.status.success = true) (h2 : mop.restart_always = false) :
    afterSpawn lop mop s env
      = .brk ⟨s.fail_count, s.start_count + 1, s.exit_code⟩
          [.monitoring lop.exe env.pid, .exitedNormally lop.exe,
            .monitoringComplete lop.exe] := by
  obtain ⟨f, c, e⟩ := s
  simp [afterSpawn, h1, h2]

lemma afterSpawn_always_cont (lop : LaunchOptions) (mop : MonitorOptions)
    (s : LoopState) (env : IterEnv)
    (h1 : env.status.success = true) (h2 : mop.restart_always = true)
    (h3 : shouldRestart mop (s.start_count + 1) = true) :
    afterSpawn lop mop s env
      = .cont ⟨s.fail_count, s.start_count + 1, env.status.code⟩
          [.monitoring lop.exe env.pid, .exitedNormally lop.exe] := by
  obtain ⟨f, c, e⟩ := s
  simp only [afterSpawn, h1, h2] at *
  simp [h3]

lemma afterSpawn_always_brk (lop : LaunchOptions) (mop : MonitorOptions)
    (s : LoopState) (env : IterEnv)
    (h1 : env.status.success = true) (h2 : mop.restart_always = true)
    (h3 : shouldRestart mop (s.start_count + 1) = false) :
    afterSpawn lop mop s env
      = .brk ⟨s.fail_count, s.start_count + 1, env.status.code⟩
          [.monitoring lop.exe env.pid, .exitedNormally lop.exe,
            .maxRestartsExceeded lop.exe] := by
  obtain ⟨f, c, e⟩ := s
  simp only [afterSpawn, h1, h2] at *
  simp [h3]

lemma afterSpawn_fail_cont (lop : LaunchOptions) (mop : MonitorOptions)
    (s : LoopState) (env : IterEnv)
    (h1 : env.status.success = false)
    (h3 : shouldRestart mop (s.start_count + 1) = true) :
    afterSpawn lop mop s env
      = .cont ⟨s.fail_count + 1, s.start_count + 1, env.status.code⟩
          [.monitoring lop.exe env.pid, failEvent lop.exe env.status] := by
  obtain ⟨f, c, e⟩ := s
  simp only [afterSpawn, h1] at *
  simp [h3]

lemma afterSpawn_fail_brk (lop : LaunchOptions) (mop : MonitorOptions)
    (s : LoopState) (env : IterEnv)
    (h1 : env.status.success = false)
    (h3 : shouldRestart mop (s.start_count + 1) = false) :
    afterSpawn lop mop s env
      = .brk ⟨s.fail_count + 1, s.start_count + 1, env.status.code⟩
          [.monitoring lop.exe env.pid, failEvent lop.exe env.status,
            .maxRestartsExceeded lop.exe] := by
  obtain ⟨f, c, e⟩ := s
  simp only [afterSpawn, h1] at *
  simp [h3]

lemma iterStep_allOk (lop : LaunchOptions) (mop : MonitorOptions)
    (s : LoopState) (env : IterEnv) (hok : env.allOk) :
    iterStep lop mop s env = afterSpawn lop mop s env := by
  obtain ⟨h1, h2, h3⟩ := hok
  simp [iterStep, h1, h2, h3]

lemma iterStep_stdout_fail (lop : LaunchOptions) (mop : MonitorOptions)
    (s : LoopState) (env : IterEnv)
    (h1 : mop.stdout.isSome = true) (h2 : env.stdout_open_ok = false) :
    iterStep lop mop s env = .err .stdoutErr [] := by
  simp [iterStep, h1, h2]

lemma iterStep_stderr_fail (lop : LaunchOptions) (mop : MonitorOptions)
    (s : LoopState) (env : IterEnv)
    (h0 : mop.stdout.isSome = true → env.stdout_open_ok = true)
    (h1 : mop.stderr.isSome = true) (h2 : env.stderr_open_ok = false) :
    iterStep lop mop s env = .err .stderrErr [] := by
  cases hso : mop.stdout.isSome
  · simp [iterStep, hso, h1, h2]
  · simp [iterStep, hso, h0 hso, h1, h2]

lemma iterStep_spawn_fail (lop : LaunchOptions) (mop : MonitorOptions)
    (s : LoopState) (env : IterEnv)
    (h0 : mop.stdout.isSome = true → env.stdout_open_ok = true)
    (h1 : mop.stderr.isSome = true → env.stderr_open_ok = true)
    (h2 : env.spawn_ok = false) :
    iterStep lop mop s env = .err .launchErr [] := by
  cases hso : mop.stdout.isSome <;> cases hse : mop.stderr.isSome
  · simp [iterStep, hso, hse, h2]
  · simp [iterStep, hso, hse, h1 hse, h2]
  · simp [iterStep, hso, h0 hso, hse, h2]
  · simp [iterStep, hso, h0 hso, hse, h1 hse, h2]

lemma iterStep_brk (lop : LaunchOptions) (mop : MonitorOptions)
    (s : LoopState) (env : IterEnv) (s' : LoopState) (log : List LogEvent)
    (h : iterStep lop mop s env = .brk s' log) :
    afterSpawn lop mop s env = .brk s' log := by
  unfold iterStep at h
  split at h
  · simp_all
  · split at h
    · simp_all
    · split at h
      · simp_all
      · exact h

lemma iterStep_cont (lop : LaunchOptions) (mop : MonitorOptions)
    (s : LoopState) (env : IterEnv) (s' : LoopState) (log : List LogEvent)
    (h : iterStep lop mop s env = .cont s' log) :
    afterSpawn lop mop s env = .cont s' log := by
  unfold iterStep at h
  split at h
  · simp_all
  · split at h
    · simp_all
    · split at h
      · simp_all
      · exact h

lemma afterSpawn_progress (lop : LaunchOptions) (mop : MonitorOptions)
    (s : LoopState) (env : IterEnv) (s' : LoopState) (log : List LogEvent)
    (h : afterSpawn lop mop s env = .brk s' log ∨
      afterSpawn lop mop s env = .cont s' log) :
    (mop.restart_always = false ∧ env.status.success = true ∧
       s' = ⟨s.fail_count, s.start_count + 1, s.exit_code⟩) ∨
    (mop.restart_always = true ∧ env.status.success = true ∧
       s' = ⟨s.fail_count, s.start_count + 1, env.status.code⟩) ∨
    (env.status.success = false ∧
       s' = ⟨s.fail_count + 1, s.start_count + 1, env.status.code⟩) := by
  cases hsucc : env.status.success
  · cases hr : shouldRestart mop (s.start_count + 1)
    · rw [afterSpawn_fail_brk lop mop s env hsucc hr] at h
      rcases h with h | h <;> simp only [StepResult.brk.injEq,
        StepResult.cont.injEq, reduceCtorEq] at h
      exact Or.inr (Or.inr ⟨rfl, h.1.symm⟩)
    · rw [afterSpawn_fail_cont lop mop s env hsucc hr] at h
      rcases h with h | h <;> simp only [StepResult.brk.injEq,
        StepResult.cont.injEq, reduceCtorEq] at h
      exact Or.inr (Or.inr ⟨rfl, h.1.symm⟩)
  · cases hra : mop.restart_always
    · rw [afterSpawn_clean_brk lop mop s env hsucc hra] at h
      rcases h with h | h <;> simp only [StepResult.brk.injEq,
        StepResult.cont.injEq, reduceCtorEq] at h
      exact Or.inl ⟨rfl, rfl, h.1.symm⟩
    · cases hr : shouldRestart mop (s.start_count + 1)
      · rw [afterSpawn_always_brk lop mop s env hsucc hra hr] at h
        rcases h with h | h <;> simp only [StepResult.brk.injEq,
          StepResult.cont.injEq, reduceCtorEq] at h
        exact Or.inr (Or.inl ⟨rfl, rfl, h.1.symm⟩)
      · rw [afterSpawn_always_cont lop mop s env hsucc hra hr] at h
        rcases h with h | h <;> simp only [StepResult.brk.injEq,
          StepResult.cont.injEq, reduceCtorEq] at h
        exact Or.inr (Or.inl ⟨rfl, rfl, h.1.symm⟩)

lemma iterStep_progress (lop : LaunchOptions) (mop : MonitorOptions)
    (s : LoopState) (env : IterEnv) (s' : LoopState) (log : List LogEvent)
    (h : iterStep lop mop s env = .brk s' log ∨
      iterStep lop mop s env = .cont s' log) :
    (mop.restart_always = false ∧ env.status.success = true ∧
       s' = ⟨s.fail_count, s.start_count + 1, s.exit_code⟩) ∨
    (mop.restart_always = true ∧ env.status.success = true ∧
       s' = ⟨s.fail_count, s.start_count + 1, env.status.code⟩) ∨
    (env.status.success = false ∧
       s' = ⟨s.fail_count + 1, s.start_count + 1, env.status.code⟩) := by
  refine afterSpawn_progress lop mop s env s' log ?_
  rcases h with h | h
  · exact Or.inl (iterStep_brk lop mop s env s' log h)
  · exact Or.inr (iterStep_cont lop mop s env s' log h)

lemma afterSpawn_cont_restart (lop : LaunchOptions) (mop : MonitorOptions)
    (s : LoopState) (env : IterEnv) (s' : LoopState) (log : List LogEvent)
    (h : afterSpawn lop mop s env = .cont s' log) :
    shouldRestart mop (s.start_count + 1) = true := by
  cases hr : shouldRestart mop (s.start_count + 1)
  · exfalso
    cases hsucc : env.status.success
    · rw [afterSpawn_fail_brk lop mop s env hsucc hr] at h
      exact absurd h (by simp)
    · cases hra : mop.restart_always
      · rw [afterSpawn_clean_brk lop mop s env hsucc hra] at h
        exact absurd h (by simp)
      · rw [afterSpawn_always_brk lop mop s env hsucc hra hr] at h
        exact absurd h (by simp)
  · rfl

lemma iterStep_cont_restart (lop : LaunchOptions) (mop : MonitorOptions)
    (s : LoopState) (env : IterEnv) (s' : LoopState) (log : List LogEvent)
    (h : iterStep lop mop s env = .cont s' log) :
    shouldRestart mop (s.start_count + 1) = true :=
  afterSpawn_cont_restart lop mop s env s' log
    (iterStep_cont lop mop s env s' log h)

lemma runLoop_exit_state_prop (lop : LaunchOptions) (mop : MonitorOptions)
    (P : LoopState → Prop)
    (hstep : ∀ s env s' log, P s →
      iterStep lop mop s env = .brk s' log ∨
        iterStep lop mop s env = .cont s' log → P s') :
    ∀ (envs : List IterEnv) (s : LoopState), P s →
      P ((runLoop lop mop s envs).exit.state) := by
  intro envs
  induction envs with
  | nil => intro s hs; simpa [runLoop, LoopExit.state] using hs
  | cons env rest ih =>
    intro s hs
    cases hstep' : iterStep lop mop s env with
    | err e log => simp [runLoop, hstep', LoopExit.state]; exact hs
    | brk s' log =>
      simp only [runLoop, hstep', LoopExit.state]
      exact hstep s env s' log hs (Or.inl hstep')
    | cont s' log =>
      simp only [runLoop, hstep']
      exact ih s' (hstep s env s' log hs (Or.inr hstep'))

lemma runLoop_start_count_spawns (lop : LaunchOptions) (mop : MonitorOptions) :
    ∀ (envs : List IterEnv) (s : LoopState),
      ((runLoop lop mop s envs).exit.state).start_count
        = s.start_count + ((runLoop lop mop s envs).spawns : Int) := by
  intro envs
  induction envs with
  | nil => intro s; simp [runLoop, LoopExit.state]
  | cons env rest ih =>
    intro s
    cases hstep : iterStep lop mop s env with
    | err e log => simp [runLoop, hstep, LoopExit.state]
    | brk s' log =>
      simp only [runLoop, hstep, LoopExit.state]
      rcases iterStep_progress lop mop s env s' log (Or.inl hstep) with
        ⟨_, _, h⟩ | ⟨_, _, h⟩ | ⟨_, h⟩ <;> simp [h]
    | cont s' log =>
      simp only [runLoop, hstep]
      have hst := ih s'
      rcases iterStep_progress lop mop s env s' log (Or.inr hstep) with
        ⟨_, _, h⟩ | ⟨_, _, h⟩ | ⟨_, h⟩ <;>
        · rw [hst, h]
          push_cast
          ring

lemma shouldRestart_none (mop : MonitorOptions) (k : Int)
    (hm : mop.max_restarts = none) : shouldRestart mop k = true := by
  simp [shouldRestart, hm]

lemma shouldRestart_some_true (mop : MonitorOptions) (N k : Int)
    (hm : mop.max_restarts = some N) (h : k - 1 < N) :
    shouldRestart mop k = true := by
  simp only [shouldRestart, hm]
  simpa using h

lemma shouldRestart_some_false (mop : MonitorOptions) (N k : Int)
    (hm : mop.max_restarts = some N) (h : N ≤ k - 1) :
    shouldRestart mop k = false := by
  simp only [shouldRestart, hm]
  simpa using not_lt.mpr h

lemma shouldRestart_some_lt (mop : MonitorOptions) (N k : Int)
    (hm : mop.max_restarts = some N)
    (h : shouldRestart mop k = true) : k - 1 < N := by
  simp only [shouldRestart, hm] at h
  simpa using h

lemma runLoop_iters_bound (lop : LaunchOptions) (mop : MonitorOptions)
    (N : Int) (hm : mop.max_restarts = some N) :
    ∀ (envs : List IterEnv) (s : LoopState),
      (runLoop lop mop s envs).iters ≤ 1 + (N - s.start_count).toNat := by
  intro envs
  induction envs with
  | nil => intro s; simp [runLoop]
  | cons env rest ih =>
    intro s
    cases hstep : iterStep lop mop s env with
    | err e log => simp [runLoop, hstep]
    | brk s' log => simp [runLoop, hstep]
    | cont s' log =>
      have hr := shouldRestart_some_lt mop N (s.start_count + 1) hm
        (iterStep_cont_restart lop mop s env s' log hstep)
      have hstart : s'.start_count = s.start_count + 1 := by
        rcases iterStep_progress lop mop s env s' log (Or.inr hstep) with
          ⟨_, _, h⟩ | ⟨_, _, h⟩ | ⟨_, h⟩ <;> simp [h]
      have hih := ih s'
      rw [hstart] at hih
      simp only [runLoop, hstep]
      omega

lemma runLoop_no_ranOut (lop : LaunchOptions) (mop : MonitorOptions)
    (N : Int) (hm : mop.max_restarts = some N) :
    ∀ (envs : List IterEnv) (s : LoopState),
      1 + (N - s.start_count).toNat ≤ envs.length →
      ∀ s'', (runLoop lop mop s envs).exit ≠ .ranOut s'' := by
  intro envs
  induction envs with
  | nil => intro s hlen; simp at hlen
  | cons env rest ih =>
    intro s hlen s''
    cases hstep : iterStep lop mop s env with
    | err e log => simp [runLoop, hstep]
    | brk s' log => simp [runLoop, hstep]
    | cont s' log =>
      have hr := shouldRestart_some_lt mop N (s.start_count + 1) hm
        (iterStep_cont_restart lop mop s env s' log hstep)
      have hstart : s'.start_count = s.start_count + 1 := by
        rcases iterStep_progress lop mop s env s' log (Or.inr hstep) with
          ⟨_, _, h⟩ | ⟨_, _, h⟩ | ⟨_, h⟩ <;> simp [h]
      simp only [runLoop, hstep]
      apply ih s'
      rw [hstart]
      simp only [List.length_cons] at hlen
      omega

lemma runLoop_allfail (lop : LaunchOptions) (mop : MonitorOptions) (N : Int)
    (hm : mop.max_restarts = some N) :
    ∀ (envs : List IterEnv) (s : LoopState),
      (∀ e ∈ envs, e.allOk) →
      (∀ e ∈ envs, e.status ≠ .signaled ∧ e.status.success = false) →
      s.start_count ≤ N →
      (N + 1 - s.start_count).toNat ≤ envs.length →
      ∃ s', (runLoop lop mop s envs).exit = .broke s' ∧
        s'.start_count = N + 1 ∧
        s'.fail_count = s.fail_count + (N + 1 - s.start_count) ∧
        (∃ c, c ≠ 0 ∧ s'.exit_code = some c) ∧
        (runLoop lop mop s envs).spawns = (N + 1 - s.start_count).toNat ∧
        (runLoop lop mop s envs).iters = (N + 1 - s.start_count).toNat := by
  intro envs
  induction envs with
  | nil =>
    intro s _ _ hsc hlen
    exfalso
    simp only [List.length_nil] at hlen
    omega
  | cons env rest ih =>
    intro s hok hfail hsc hlen
    have hoke : env.allOk := hok env (by simp)
    obtain ⟨hsig, hsucc⟩ := hfail env (by simp)
    obtain ⟨c, hc, hcode⟩ : ∃ c, c ≠ 0 ∧ env.status.code = some c := by
      rcases hst : env.status with c | _
      · refine ⟨c, ?_, rfl⟩
        rw [hst] at hsucc
        simpa [ExitStatus.success] using hsucc
      · exact absurd hst hsig
    have hstep0 := iterStep_allOk lop mop s env hoke
    rcases eq_or_lt_of_le hsc with heq | hlt
    · have hrf : shouldRestart mop (s.start_count + 1) = false :=
        shouldRestart_some_false mop N (s.start_count + 1) hm (by omega)
      have hstep : iterStep lop mop s env
          = .brk ⟨s.fail_count + 1, s.start_count + 1, env.status.code⟩
              [.monitoring lop.exe env.pid, failEvent lop.exe env.status,
                .maxRestartsExceeded lop.exe] := by
        rw [hstep0]
        exact afterSpawn_fail_brk lop mop s env hsucc hrf
      refine ⟨⟨s.fail_count + 1, s.start_count + 1, env.status.code⟩,
        by simp [runLoop, hstep], by simp; omega, by simp; omega,
        ⟨c, hc, by simpa using hcode⟩, by simp [runLoop, hstep]; omega,
        by simp [runLoop, hstep]; omega⟩
    · have hrt : shouldRestart mop (s.start_count + 1) = true :=
        shouldRestart_some_true mop N (s.start_count + 1) hm (by omega)
      have hstep : iterStep lop mop s env
          = .cont ⟨s.fail_count + 1, s.start_count + 1, env.status.code⟩
              [.monitoring lop.exe env.pid, failEvent lop.exe env.status] := by
        rw [hstep0]
        exact afterSpawn_fail_cont lop mop s env hsucc hrt
      obtain ⟨s', h1, h2, h3, h4, h5, h6⟩ :=
        ih ⟨s.fail_count + 1, s.start_count + 1, env.status.code⟩
          (fun e he => hok e (by simp [he]))
          (fun e he => hfail e (by simp [he]))
          (by simp; omega)
          (by simp only [List.length_cons] at hlen; simp; omega)
      simp only at h3 h5 h6
      refine ⟨s', by simp [runLoop, hstep, h1], h2, by rw [h3]; simp; omega,
        h4, ?_, ?_⟩
      · simp [runLoop, hstep, h5]
        omega
      · simp [runLoop, hstep, h6]
        omega

lemma iterStep_always_unlimited (lop : LaunchOptions) (mop : MonitorOptions)
    (s : LoopState) (env : IterEnv)
    (hra : mop.restart_always = true) (hm : mop.max_restarts = none)
    (hok : env.allOk) :
    ∃ s' log, iterStep lop mop s env = .cont s' log ∧
      s'.start_count = s.start_count + 1 := by
  rw [iterStep_allOk lop mop s env hok]
  have hr : shouldRestart mop (s.start_count + 1) = true :=
    shouldRestart_none mop (s.start_count + 1) hm
  cases hsucc : env.status.success
  · exact ⟨_, _, afterSpawn_fail_cont lop mop s env hsucc hr, rfl⟩
  · exact ⟨_, _, afterSpawn_always_cont lop mop s env hsucc hra hr, rfl⟩

lemma runLoop_append_allOk (lop : LaunchOptions) (mop : MonitorOptions)
    (hra : mop.restart_always = true) (hm : mop.max_restarts = none) :
    ∀ (goods rest : List IterEnv) (s : LoopState),
      (∀ e ∈ goods, e.allOk) →
      ∃ s', (runLoop lop mop s (goods ++ rest)).exit
          = (runLoop lop mop s' rest).exit ∧
        (runLoop lop mop s (goods ++ rest)).spawns
          = goods.length + (runLoop lop mop s' rest).spawns ∧
        (runLoop lop mop s (goods ++ rest)).iters
          = goods.length + (runLoop lop mop s' rest).iters ∧
        s'.start_count = s.start_count + goods.length := by
  intro goods
  induction goods with
  | nil => intro rest s _; exact ⟨s, by simp, by simp, by simp, by simp⟩
  | cons g gs ih =>
    intro rest s hok
    obtain ⟨s1, log, hstep, hs1⟩ :=
      iterStep_always_unlimited lop mop s g hra hm (hok g (by simp))
    obtain ⟨s', h1, h2, h3, h4⟩ := ih rest s1 (fun e he => hok e (by simp [he]))
    refine ⟨s', ?_, ?_, ?_, ?_⟩
    · simpa [runLoop, hstep] using h1
    · simp [runLoop, hstep, h2]
      omega
    · simp [runLoop, hstep, h3]
      omega
    · rw [h4, hs1]
      simp
      omega

lemma deriveResult_always (mop : MonitorOptions) (s : LoopState)
    (h : mop.restart_always = true) :
    deriveResult mop s = .restartCountExceeded s.fail_count := by
  simp [deriveResult, h]

lemma deriveResult_clean (mop : MonitorOptions) (s : LoopState)
    (h : mop.restart_always = false) (hf : s.fail_count = 0) :
    deriveResult mop s = .ok := by
  simp [deriveResult, h, hf]

lemma deriveResult_failed (mop : MonitorOptions) (s : LoopState)
    (h : mop.restart_always = false) (hf : s.fail_count ≠ 0)
    (he : s.exit_code ≠ some 0) :
    deriveResult mop s = .restartCountExceeded s.fail_count := by
  simp [deriveResult, h, hf, he]

lemma deriveResult_ne_okAfterRestart (mop : MonitorOptions) (s : LoopState)
    (he : s.exit_code ≠ some 0) (x : Int) :
    deriveResult mop s ≠ .okAfterRestart x := by
  cases hra : mop.restart_always
  · by_cases hf : s.fail_count = 0
    · rw [deriveResult_clean mop s hra hf]
      simp
    · rw [deriveResult_failed mop s hra hf he]
      simp
  · rw [deriveResult_always mop s hra]
    simp

lemma runLoop_exit_code_ne_zero (lop : LaunchOptions) (mop : MonitorOptions)
    (hra : mop.restart_always = false) (envs : List IterEnv) :
    ((runLoop lop mop ⟨0, 0, none⟩ envs).exit.state).exit_code ≠ some 0 := by
  apply runLoop_exit_state_prop lop mop (fun s => s.exit_code ≠ some 0)
  · intro s env s' log hs h
    rcases iterStep_progress lop mop s env s' log h with
      ⟨_, _, hs'⟩ | ⟨hra', _, _⟩ | ⟨hsucc, hs'⟩
    · subst hs'
      exact hs
    · rw [hra] at hra'
      exact absurd hra' (by simp)
    · subst hs'
      exact code_ne_some_zero_of_not_success env.status hsucc
  · simp

/-- The target used in the concrete scenarios below. -/
def defaultTarget : LaunchOptions := ⟨"target", []⟩

/-- The C1 scenario's run: two non-zero exits followed by a clean exit,
with every open and spawn succeeding. -/
def failFailClean : List IterEnv :=
  [okEnv (.exited 1), okEnv (.exited 1), okEnv (.exited 0)]

/-- `-a -m 3`: always restart, at most 3 restarts. -/
def alwaysCleanPolicy : MonitorOptions :=
  { MonitorOptions.new with restart_always := true, max_restarts := some 3 }

/-- `-m 1`: at most one restart. -/
def limitOnePolicy : MonitorOptions :=
  { MonitorOptions.new with max_restarts := some 1 }

/-- C1: the spec says that under the default policy a target that exits
non-zero twice and then exits 0 yields outcome `OkAfterRestart(2)`
(`RestartedThenClean(2)`) with derived process exit code 0 after 3 spawns.
The code disagrees: the clean-exit `break` (main.rs line 219) happens
before `exit_code = status.code()` (line 224), so `exit_code` still holds
the failing code `1` when the outcome is derived, and the run yields
`RestartCountExceeded(2)` with derived process exit code 2 (3 spawns). This
theorem evaluates the embedded code at that failing input. The
`OkAfterRestart` variant and its match arm (lines 242, 284) document the
intended behaviour, so the claim records a code bug. -/
theorem claim1_fail_fail_clean_actual_behavior :
    (relaunch defaultTarget .new failFailClean).result
      = some (.ok (.restartCountExceeded 2)) ∧
    (relaunch defaultTarget .new failFailClean).spawns = 3 ∧
    (relaunch defaultTarget .new failFailClean).fail_count = 2 ∧
    processExitCode (.ok (.restartCountExceeded 2)) = 2 := by
  decide

/-- C2: for every launch spec, every policy and every finite sequence of
iteration environments, `relaunch` never returns the `OkAfterRestart`
variant: with `restart_always = false` the clean-exit break precedes the
`exit_code` assignment, so the recorded exit code is never `Some(0)`, and
with `restart_always = true` the outcome derivation ignores `exit_code`. -/
theorem claim2_okAfterRestart_unreachable (lop : LaunchOptions)
    (mop : MonitorOptions) (envs : List IterEnv) (x : Int) :
    (relaunch lop mop envs).result ≠ some (.ok (.okAfterRestart x)) := by
  rw [relaunch_result]
  cases hexit : (runLoop lop mop ⟨0, 0, none⟩ envs).exit with
  | broke s =>
    simp only [exitResult, Option.some.injEq]
    intro h
    have hd : deriveResult mop s = .okAfterRestart x := by
      simpa using h
    cases hra : mop.restart_always
    · have he : s.exit_code ≠ some 0 := by
        have hinv := runLoop_exit_code_ne_zero lop mop hra envs
        rw [hexit] at hinv
        simpa [LoopExit.state] using hinv
      exact deriveResult_ne_okAfterRestart mop s he x hd
    · rw [deriveResult_always mop s hra] at hd
      exact absurd hd (by simp)
  | errored e s => simp [exitResult]
  | ranOut s => simp [exitResult]

/-- C3: whenever `restart_always` is true, any returned outcome is
`RestartCountExceeded(fail_count)` and the derived process exit code equals
`fail_count`; concretely, `-a -m 3` with a target that always exits 0 and
enough environments gives exactly 4 spawns, outcome
`RestartCountExceeded(0)` and process exit code 0. -/
theorem claim3_restart_always_outcome :
    (∀ (lop : LaunchOptions) (mop : MonitorOptions) (envs : List IterEnv)
        (r : RelaunchResult),
      mop.restart_always = true →
      (relaunch lop mop envs).result = some (.ok r) →
      r = .restartCountExceeded ((relaunch lop mop envs).fail_count) ∧
      processExitCode (.ok r) = (relaunch lop mop envs).fail_count) ∧
    ((relaunch defaultTarget alwaysCleanPolicy
        (List.replicate 5 (okEnv (.exited 0)))).result
      = some (.ok (.restartCountExceeded 0)) ∧
     (relaunch defaultTarget alwaysCleanPolicy
        (List.replicate 5 (okEnv (.exited 0)))).spawns = 4 ∧
     processExitCode (.ok (.restartCountExceeded 0)) = 0) := by
  constructor
  · intro lop mop envs r hra hres
    rw [relaunch_result] at hres
    rw [relaunch_fail_count]
    cases hexit : (runLoop lop mop ⟨0, 0, none⟩ envs).exit with
    | broke s =>
      rw [hexit] at hres
      simp only [exitResult, Option.some.injEq] at hres
      have hr : r = deriveResult mop s := by
        simpa using hres.symm
      rw [deriveResult_always mop s hra] at hr
      subst hr
      exact ⟨rfl, rfl⟩
    | errored e s =>
      rw [hexit] at hres
      simp [exitResult] at hres
    | ranOut s =>
      rw [hexit] at hres
      simp [exitResult] at hres
  · exact ⟨by decide, by decide, by decide⟩

/-- Witness for C3 at the concrete `-a -m 3`, always-clean run. -/
theorem claim3_restart_always_outcome_witness :
    RelaunchResult.restartCountExceeded 0
        = .restartCountExceeded ((relaunch defaultTarget alwaysCleanPolicy
            (List.replicate 5 (okEnv (.exited 0)))).fail_count) ∧
      processExitCode (.ok (.restartCountExceeded 0))
        = (relaunch defaultTarget alwaysCleanPolicy
            (List.replicate 5 (okEnv (.exited 0)))).fail_count :=
  claim3_restart_always_outcome.1 defaultTarget alwaysCleanPolicy
    (List.replicate 5 (okEnv (.exited 0))) (.restartCountExceeded 0)
    (by decide) (by decide)

/-- C4: with `max_restarts = N` (N ≥ 1), `restart_always = false`, and a
target whose every run exits with a non-zero code (all opens and spawns
succeeding, enough environments supplied), `relaunch` spawns exactly N+1
children, returns `RestartCountExceeded(N+1)`, and the derived process exit
code is N+1. -/
theorem claim4_limit_exhaustion (lop : LaunchOptions) (mop : MonitorOptions)
    (N : Int) (hm : mop.max_restarts = some N)
    (hra : mop.restart_always = false) (hN : 1 ≤ N) (envs : List IterEnv)
    (hok : ∀ e ∈ envs, e.allOk)
    (hfail : ∀ e ∈ envs, e.status ≠ .signaled ∧ e.status.success = false)
    (hlen : (N + 1).toNat ≤ envs.length) :
    (relaunch lop mop envs).spawns = (N + 1).toNat ∧
    (relaunch lop mop envs).result
      = some (.ok (.restartCountExceeded (N + 1))) ∧
    processExitCode (.ok (.restartCountExceeded (N + 1))) = N + 1 := by
  obtain ⟨s', h1, h2, h3, ⟨c, hc, hcode⟩, h5, h6⟩ :=
    runLoop_allfail lop mop N hm envs ⟨0, 0, none⟩ hok hfail
      (by show (0 : Int) ≤ N; omega)
      (by show (N + 1 - 0).toNat ≤ envs.length; simpa using hlen)
  have hfc : s'.fail_count = N + 1 := by
    rw [h3]
    show (0 : Int) + (N + 1 - 0) = N + 1
    omega
  refine ⟨?_, ?_, rfl⟩
  · rw [relaunch_spawns, h5]
    show (N + 1 - 0).toNat = (N + 1).toNat
    omega
  · rw [relaunch_result, h1]
    simp only [exitResult, Option.some.injEq]
    have hf : s'.fail_count ≠ 0 := by omega
    have he : s'.exit_code ≠ some 0 := by
      rw [hcode]
      simp [hc]
    rw [deriveResult_failed mop s' hra hf he, hfc]

/-- Witness for C4 at N = 1 with a target that always exits 7. -/
theorem claim4_limit_exhaustion_witness :
    (relaunch defaultTarget limitOnePolicy
        [okEnv (.exited 7), okEnv (.exited 7)]).spawns = ((1 : Int) + 1).toNat ∧
    (relaunch defaultTarget limitOnePolicy
        [okEnv (.exited 7), okEnv (.exited 7)]).result
      = some (.ok (.restartCountExceeded ((1 : Int) + 1))) ∧
    processExitCode (.ok (.restartCountExceeded ((1 : Int) + 1)))
      = (1 : Int) + 1 :=
  claim4_limit_exhaustion defaultTarget limitOnePolicy 1 rfl rfl (by decide)
    [okEnv (.exited 7), okEnv (.exited 7)] (by decide) (by decide) (by decide)

/-- C5: the counter invariant `start_count ≥ fail_count ≥ 0` holds at the
end of every run and is preserved by every loop iteration (which increments
`start_count` by exactly 1, independently of the status the wait returns);
`start_count` equals the number of spawned children; and with
`max_restarts = Some N` (N ≥ 0) the loop runs at most N+1 iterations and,
given at least N+1 environments, is guaranteed to have ended (no
environment exhaustion). -/
theorem claim5_invariant_and_termination (lop : LaunchOptions)
    (mop : MonitorOptions) (envs : List IterEnv) :
    (0 ≤ (relaunch lop mop envs).fail_count ∧
      (relaunch lop mop envs).fail_count
        ≤ (relaunch lop mop envs).start_count) ∧
    (∀ (s : LoopState) (env : IterEnv) (s' : LoopState) (log : List LogEvent),
      s.inv →
      iterStep lop mop s env = .brk s' log ∨
        iterStep lop mop s env = .cont s' log →
      s'.inv ∧ s'.start_count = s.start_count + 1) ∧
    (relaunch lop mop envs).start_count
      = ((relaunch lop mop envs).spawns : Int) ∧
    (∀ N : Int, mop.max_restarts = some N → 0 ≤ N →
      (relaunch lop mop envs).iters ≤ (N + 1).toNat ∧
      ((N + 1).toNat ≤ envs.length → (relaunch lop mop envs).result ≠ none)) := by
  have hstep : ∀ (s : LoopState) (env : IterEnv) (s' : LoopState)
      (log : List LogEvent), s.inv →
      iterStep lop mop s env = .brk s' log ∨
        iterStep lop mop s env = .cont s' log →
      s'.inv ∧ s'.start_count = s.start_count + 1 := by
    intro s env s' log hs h
    obtain ⟨h0, h1⟩ := hs
    rcases iterStep_progress lop mop s env s' log h with
      ⟨_, _, hs'⟩ | ⟨_, _, hs'⟩ | ⟨_, hs'⟩
    · subst hs'
      refine ⟨⟨?_, ?_⟩, rfl⟩
      · show 0 ≤ s.fail_count
        omega
      · show s.fail_count ≤ s.start_count + 1
        omega
    · subst hs'
      refine ⟨⟨?_, ?_⟩, rfl⟩
      · show 0 ≤ s.fail_count
        omega
      · show s.fail_count ≤ s.start_count + 1
        omega
    · subst hs'
      refine ⟨⟨?_, ?_⟩, rfl⟩
      · show 0 ≤ s.fail_count + 1
        omega
      · show s.fail_count + 1 ≤ s.start_count + 1
        omega
  refine ⟨?_, hstep, ?_, ?_⟩
  · exact runLoop_exit_state_prop lop mop LoopState.inv
      (fun s env s' log hs h => (hstep s env s' log hs h).1) envs ⟨0, 0, none⟩
      ⟨le_refl 0, le_refl 0⟩
  · rw [relaunch_start_count, relaunch_spawns]
    have hsp := runLoop_start_count_spawns lop mop envs ⟨0, 0, none⟩
    rw [hsp]
    show (0 : Int) + _ = _
    omega
  · intro N hm hN
    constructor
    · rw [relaunch_iters]
      have hb := runLoop_iters_bound lop mop N hm envs ⟨0, 0, none⟩
      have hz : ((⟨0, 0, none⟩ : LoopState).start_count) = (0 : Int) := rfl
      rw [hz] at hb
      omega
    · intro hlen
      rw [relaunch_result]
      cases hexit : (runLoop lop mop ⟨0, 0, none⟩ envs).exit with
      | broke s => simp [exitResult]
      | errored e s => simp [exitResult]
      | ranOut s =>
        exfalso
        refine runLoop_no_ranOut lop mop N hm envs ⟨0, 0, none⟩ ?_ s hexit
        show 1 + (N - 0).toNat ≤ envs.length
        omega

/-- Witness for C5: a concrete preserved step and a concrete terminated
run under `-m 1`. -/
theorem claim5_invariant_and_termination_witness :
    ((⟨2, 3, some 5⟩ : LoopState).inv ∧
      (⟨2, 3, some 5⟩ : LoopState).start_count
        = (⟨1, 2, some 3⟩ : LoopState).start_count + 1) ∧
    (relaunch defaultTarget limitOnePolicy
        (List.replicate 3 (okEnv (.exited 2)))).result ≠ none := by
  constructor
  · exact (claim5_invariant_and_termination defaultTarget limitOnePolicy
      (List.replicate 3 (okEnv (.exited 2)))).2.1 ⟨1, 2, some 3⟩
      (okEnv (.exited 5)) ⟨2, 3, some 5⟩
      [.monitoring "target" 100, .exitedCode "target" 5,
        .maxRestartsExceeded "target"]
      (by constructor <;> decide) (Or.inl (by decide))
  · exact ((claim5_invariant_and_termination defaultTarget limitOnePolicy
      (List.replicate 3 (okEnv (.exited 2)))).2.2.2 1 rfl (by decide)).2
      (by decide)

/-- C6: with `max_restarts = 0`, whatever `restart_always` is and whatever
exit status the child produces (zero, non-zero, or signal), the loop does
exactly one spawn and one iteration and then stops with an outcome. -/
theorem claim6_zero_limit_single_attempt (lop : LaunchOptions)
    (mop : MonitorOptions) (hm : mop.max_restarts = some 0) (env : IterEnv)
    (rest : List IterEnv) (hok : env.allOk) :
    (relaunch lop mop (env :: rest)).spawns = 1 ∧
    (relaunch lop mop (env :: rest)).iters = 1 ∧
    ∃ r, (relaunch lop mop (env :: rest)).result = some (.ok r) := by
  have hrf : shouldRestart mop ((⟨0, 0, none⟩ : LoopState).start_count + 1)
      = false :=
    shouldRestart_some_false mop 0 _ hm (by show (0 : Int) ≤ 0 + 1 - 1; omega)
  obtain ⟨s', log, hstep⟩ : ∃ s' log,
      iterStep lop mop ⟨0, 0, none⟩ env = .brk s' log := by
    rw [iterStep_allOk lop mop ⟨0, 0, none⟩ env hok]
    cases hsucc : env.status.success
    · exact ⟨_, _, afterSpawn_fail_brk lop mop ⟨0, 0, none⟩ env hsucc hrf⟩
    · cases hra : mop.restart_always
      · exact ⟨_, _, afterSpawn_clean_brk lop mop ⟨0, 0, none⟩ env hsucc hra⟩
      · exact ⟨_, _, afterSpawn_always_brk lop mop ⟨0, 0, none⟩ env hsucc hra hrf⟩
  refine ⟨?_, ?_, ⟨deriveResult mop s', ?_⟩⟩
  · rw [relaunch_spawns]
    simp [runLoop, hstep]
  · rw [relaunch_iters]
    simp [runLoop, hstep]
  · rw [relaunch_result]
    simp [runLoop, hstep, exitResult]

/-- Witness for C6 with a signal-terminated child under `-a -m 0`. -/
theorem claim6_zero_limit_single_attempt_witness :
    (relaunch defaultTarget
        { MonitorOptions.new with max_restarts := some 0, restart_always := true }
        (okEnv .signaled :: [okEnv .signaled])).spawns = 1 ∧
    (relaunch defaultTarget
        { MonitorOptions.new with max_restarts := some 0, restart_always := true }
        (okEnv .signaled :: [okEnv .signaled])).iters = 1 ∧
    ∃ r, (relaunch defaultTarget
        { MonitorOptions.new with max_restarts := some 0, restart_always := true }
        (okEnv .signaled :: [okEnv .signaled])).result = some (.ok r) :=
  claim6_zero_limit_single_attempt defaultTarget
    { MonitorOptions.new with max_restarts := some 0, restart_always := true }
    rfl (okEnv .signaled) [okEnv .signaled] (by decide)

/-- C7: when the configured stdout redirect file fails to open, the loop
aborts at once with `StdoutErr` and no child is spawned in that iteration
(`StderrErr` analogously, checked after stdout); in the first iteration the
abort happens before any spawn at all (`spawns = 0`, `start_count = 0`);
and because the redirect file is reopened on every iteration, an open
failure in a later iteration (here after an arbitrary all-ok prefix kept
running by `-a` with no restart limit) aborts the same way, with exactly
the prefix's children spawned. -/
theorem claim7_redirect_open_failure (lop : LaunchOptions)
    (mop : MonitorOptions) :
    (∀ (env : IterEnv) (rest : List IterEnv),
      mop.stdout.isSome = true → env.stdout_open_ok = false →
      (relaunch lop mop (env :: rest)).result = some (.error .stdoutErr) ∧
      (relaunch lop mop (env :: rest)).spawns = 0 ∧
      (relaunch lop mop (env :: rest)).start_count = 0) ∧
    (∀ (env : IterEnv) (rest : List IterEnv),
      mop.stderr.isSome = true →
      (mop.stdout.isSome = true → env.stdout_open_ok = true) →
      env.stderr_open_ok = false →
      (relaunch lop mop (env :: rest)).result = some (.error .stderrErr) ∧
      (relaunch lop mop (env :: rest)).spawns = 0 ∧
      (relaunch lop mop (env :: rest)).start_count = 0) ∧
    (∀ (goods : List IterEnv) (bad : IterEnv) (rest : List IterEnv),
      mop.restart_always = true → mop.max_restarts = none →
      mop.stdout.isSome = true →
      (∀ e ∈ goods, e.allOk) → bad.stdout_open_ok = false →
      (relaunch lop mop (goods ++ bad :: rest)).result
        = some (.error .stdoutErr) ∧
      (relaunch lop mop (goods ++ bad :: rest)).spawns = goods.length) := by
  refine ⟨?_, ?_, ?_⟩
  · intro env rest h1 h2
    have hstep := iterStep_stdout_fail lop mop ⟨0, 0, none⟩ env h1 h2
    refine ⟨?_, ?_, ?_⟩
    · rw [relaunch_result]
      simp [runLoop, hstep, exitResult]
    · rw [relaunch_spawns]
      simp [runLoop, hstep]
    · rw [relaunch_start_count]
      simp [runLoop, hstep, LoopExit.state]
  · intro env rest h1 h0 h2
    have hstep := iterStep_stderr_fail lop mop ⟨0, 0, none⟩ env h0 h1 h2
    refine ⟨?_, ?_, ?_⟩
    · rw [relaunch_result]
      simp [runLoop, hstep, exitResult]
    · rw [relaunch_spawns]
      simp [runLoop, hstep]
    · rw [relaunch_start_count]
      simp [runLoop, hstep, LoopExit.state]
  · intro goods bad rest hra hm h1 hok h2
    obtain ⟨s', hexit, hspawns, _, _⟩ :=
      runLoop_append_allOk lop mop hra hm goods (bad :: rest) ⟨0, 0, none⟩ hok
    have hstep := iterStep_stdout_fail lop mop s' bad h1 h2
    constructor
    · rw [relaunch_result, hexit]
      simp [runLoop, hstep, exitResult]
    · rw [relaunch_spawns, hspawns]
      simp [runLoop, hstep]

/-- Witness for C7: stdout failure on iteration 1 and on iteration 3. -/
theorem claim7_redirect_open_failure_witness :
    ((relaunch defaultTarget
        { MonitorOptions.new with stdout := some "out" }
        [⟨false, true, true, 7, .exited 0⟩]).result
      = some (.error .stdoutErr) ∧
     (relaunch defaultTarget
        { MonitorOptions.new with stdout := some "out" }
        [⟨false, true, true, 7, .exited 0⟩]).spawns = 0 ∧
     (relaunch defaultTarget
        { MonitorOptions.new with stdout := some "out" }
        [⟨false, true, true, 7, .exited 0⟩]).start_count = 0) ∧
    ((relaunch defaultTarget
        { MonitorOptions.new with stdout := some "out", restart_always := true }
        ([okEnv (.exited 0), okEnv (.exited 3)]
          ++ ⟨false, true, true, 7, .exited 0⟩ :: [])).result
      = some (.error .stdoutErr) ∧
     (relaunch defaultTarget
        { MonitorOptions.new with stdout := some "out", restart_always := true }
        ([okEnv (.exited 0), okEnv (.exited 3)]
          ++ ⟨false, true, true, 7, .exited 0⟩ :: [])).spawns
      = [okEnv (.exited 0), okEnv (.exited 3)].length) :=
  ⟨(claim7_redirect_open_failure defaultTarget
      { MonitorOptions.new with stdout := some "out" }).1
      ⟨false, true, true, 7, .exited 0⟩ [] (by decide) (by decide),
   (claim7_redirect_open_failure defaultTarget
      { MonitorOptions.new with stdout := some "out", restart_always := true }).2.2
      [okEnv (.exited 0), okEnv (.exited 3)] ⟨false, true, true, 7, .exited 0⟩
      [] rfl rfl rfl (by decide) rfl⟩

/-- C8: a spawn failure (with the configured redirects opening fine) makes
`relaunch` return `Err(LaunchErr)` immediately: the counters are not
advanced by the failing iteration, and a spawn failure after an arbitrary
run of successful iterations (kept going by `-a` with no restart limit) is
handled identically to a first-iteration one — fatal, never retried. -/
theorem claim8_spawn_failure_fatal (lop : LaunchOptions)
    (mop : MonitorOptions) :
    (∀ (env : IterEnv) (rest : List IterEnv),
      (mop.stdout.isSome = true → env.stdout_open_ok = true) →
      (mop.stderr.isSome = true → env.stderr_open_ok = true) →
      env.spawn_ok = false →
      (relaunch lop mop (env :: rest)).result = some (.error .launchErr) ∧
      (relaunch lop mop (env :: rest)).spawns = 0 ∧
      (relaunch lop mop (env :: rest)).start_count = 0 ∧
      (relaunch lop mop (env :: rest)).fail_count = 0 ∧
      (relaunch lop mop (env :: rest)).iters = 1) ∧
    (∀ (goods : List IterEnv) (bad : IterEnv) (rest : List IterEnv),
      mop.restart_always = true → mop.max_restarts = none →
      (∀ e ∈ goods, e.allOk) →
      (mop.stdout.isSome = true → bad.stdout_open_ok = true) →
      (mop.stderr.isSome = true → bad.stderr_open_ok = true) →
      bad.spawn_ok = false →
      (relaunch lop mop (goods ++ bad :: rest)).result
        = some (.error .launchErr) ∧
      (relaunch lop mop (goods ++ bad :: rest)).spawns = goods.length ∧
      (relaunch lop mop (goods ++ bad :: rest)).start_count
        = (goods.length : Int) ∧
      (relaunch lop mop (goods ++ bad :: rest)).iters = goods.length + 1) := by
  constructor
  · intro env rest h0 h1 h2
    have hstep := iterStep_spawn_fail lop mop ⟨0, 0, none⟩ env h0 h1 h2
    refine ⟨?_, ?_, ?_, ?_, ?_⟩
    · rw [relaunch_result]
      simp [runLoop, hstep, exitResult]
    · rw [relaunch_spawns]
      simp [runLoop, hstep]
    · rw [relaunch_start_count]
      simp [runLoop, hstep, LoopExit.state]
    · rw [relaunch_fail_count]
      simp [runLoop, hstep, LoopExit.state]
    · rw [relaunch_iters]
      simp [runLoop, hstep]
  · intro goods bad rest hra hm hok h0 h1 h2
    obtain ⟨s', hexit, hspawns, hiters, hstart⟩ :=
      runLoop_append_allOk lop mop hra hm goods (bad :: rest) ⟨0, 0, none⟩ hok
    have hstep := iterStep_spawn_fail lop mop s' bad h0 h1 h2
    refine ⟨?_, ?_, ?_, ?_⟩
    · rw [relaunch_result, hexit]
      simp [runLoop, hstep, exitResult]
    · rw [relaunch_spawns, hspawns]
      simp [runLoop, hstep]
    · rw [relaunch_start_count, hexit]
      have : (runLoop lop mop s' (bad :: rest)).exit = .errored .launchErr s' := by
        simp [runLoop, hstep]
      rw [this]
      show s'.start_count = (goods.length : Int)
      rw [hstart]
      show (0 : Int) + (goods.length : Int) = (goods.length : Int)
      omega
    · rw [relaunch_iters, hiters]
      simp [runLoop, hstep]

/-- Witness for C8: spawn failure on iteration 1 and on iteration 3. -/
theorem claim8_spawn_failure_fatal_witness :
    ((relaunch defaultTarget MonitorOptions.new
        [⟨true, true, false, 7, .exited 0⟩]).result
      = some (.error .launchErr) ∧
     (relaunch defaultTarget MonitorOptions.new
        [⟨true, true, false, 7, .exited 0⟩]).spawns = 0 ∧
     (relaunch defaultTarget MonitorOptions.new
        [⟨true, true, false, 7, .exited 0⟩]).start_count = 0 ∧
     (relaunch defaultTarget MonitorOptions.new
        [⟨true, true, false, 7, .exited 0⟩]).fail_count = 0 ∧
     (relaunch defaultTarget MonitorOptions.new
        [⟨true, true, false, 7, .exited 0⟩]).iters = 1) ∧
    ((relaunch defaultTarget
        { MonitorOptions.new with restart_always := true }
        ([okEnv (.exited 0), okEnv (.exited 0)]
          ++ ⟨true, true, false, 7, .exited 0⟩ :: [])).result
      = some (.error .launchErr) ∧
     (relaunch defaultTarget
        { MonitorOptions.new with restart_always := true }
        ([okEnv (.exited 0), okEnv (.exited 0)]
          ++ ⟨true, true, false, 7, .exited 0⟩ :: [])).spawns
      = [okEnv (.exited 0), okEnv (.exited 0)].length ∧
     (relaunch defaultTarget
        { MonitorOptions.new with restart_always := true }
        ([okEnv (.exited 0), okEnv (.exited 0)]
          ++ ⟨true, true, false, 7, .exited 0⟩ :: [])).start_count
      = ([okEnv (.exited 0), okEnv (.exited 0)].length : Int) ∧
     (relaunch defaultTarget
        { MonitorOptions.new with restart_always := true }
        ([okEnv (.exited 0), okEnv (.exited 0)]
          ++ ⟨true, true, false, 7, .exited 0⟩ :: [])).iters
      = [okEnv (.exited 0), okEnv (.exited 0)].length + 1) :=
  ⟨(claim8_spawn_failure_fatal defaultTarget MonitorOptions.new).1
      ⟨true, true, false, 7, .exited 0⟩ [] (by decide) (by decide) rfl,
   (claim8_spawn_failure_fatal defaultTarget
      { MonitorOptions.new with restart_always := true }).2
      [okEnv (.exited 0), okEnv (.exited 0)] ⟨true, true, false, 7, .exited 0⟩
      [] rfl rfl (by decide) (by decide) (by decide) rfl⟩

lemma iterStep_interval (lop : LaunchOptions) (mop : MonitorOptions)
    (i : Option Int) (s : LoopState) (env : IterEnv) :
    iterStep lop { mop with restart_interval := i } s env
      = iterStep lop mop s env := by
  cases mop
  rfl

lemma runLoop_interval (lop : LaunchOptions) (mop : MonitorOptions)
    (i : Option Int) :
    ∀ (envs : List IterEnv) (s : LoopState),
      runLoop lop { mop with restart_interval := i } s envs
        = runLoop lop mop s envs := by
  intro envs
  induction envs with
  | nil => intro s; rfl
  | cons env rest ih =>
    intro s
    simp only [runLoop, iterStep_interval]
    cases iterStep lop mop s env <;> simp [ih]

lemma deriveResult_interval (mop : MonitorOptions) (i : Option Int)
    (s : LoopState) :
    deriveResult { mop with restart_interval := i } s = deriveResult mop s := by
  cases mop
  rfl

/-- C9: the whole observable behaviour of `relaunch` — returned value or
error, final counters, number of spawns and iterations, and every emitted
log line — is unchanged when only the `restart_interval` field of the
policy is changed: the loop never consults it. -/
theorem claim9_restart_interval_inert (lop : LaunchOptions)
    (mop : MonitorOptions) (i : Option Int) (envs : List IterEnv) :
    relaunch lop { mop with restart_interval := i } envs
      = relaunch lop mop envs := by
  have hd : ∀ ex, exitResult { mop with restart_interval := i } ex
      = exitResult mop ex := by
    intro ex
    cases ex <;> simp [exitResult, deriveResult_interval]
  simp only [relaunch, runLoop_interval, hd]

/-- C10: with any policy having `restart_always = false` and a first run
that exits 0 (opens and spawn succeeding), `relaunch` spawns exactly once,
`fail_count` stays 0, the outcome is `RelaunchResult::Ok` (`CleanExit`)
and the derived process exit code is 0. -/
theorem claim10_clean_first_exit (lop : LaunchOptions)
    (mop : MonitorOptions) (hra : mop.restart_always = false) (env : IterEnv)
    (rest : List IterEnv) (hok : env.allOk) (hst : env.status = .exited 0) :
    (relaunch lop mop (env :: rest)).result = some (.ok .ok) ∧
    (relaunch lop mop (env :: rest)).spawns = 1 ∧
    (relaunch lop mop (env :: rest)).fail_count = 0 ∧
    processExitCode (.ok .ok) = 0 := by
  have hsucc : env.status.success = true := by
    rw [hst]
    decide
  have hstep : iterStep lop mop ⟨0, 0, none⟩ env
      = .brk ⟨0, 0 + 1, none⟩
          [.monitoring lop.exe env.pid, .exitedNormally lop.exe,
            .monitoringComplete lop.exe] := by
    rw [iterStep_allOk lop mop ⟨0, 0, none⟩ env hok]
    exact afterSpawn_clean_brk lop mop ⟨0, 0, none⟩ env hsucc hra
  refine ⟨?_, ?_, ?_, rfl⟩
  · rw [relaunch_result]
    simp only [runLoop, hstep, exitResult, Option.some.injEq]
    rw [deriveResult_clean mop ⟨0, 0 + 1, none⟩ hra rfl]
  · rw [relaunch_spawns]
    simp [runLoop, hstep]
  · rw [relaunch_fail_count]
    simp [runLoop, hstep, LoopExit.state]

/-- Witness for C10 under the default policy. -/
theorem claim10_clean_first_exit_witness :
    (relaunch defaultTarget MonitorOptions.new
        (okEnv (.exited 0) :: [okEnv (.exited 4)])).result
      = some (.ok .ok) ∧
    (relaunch defaultTarget MonitorOptions.new
        (okEnv (.exited 0) :: [okEnv (.exited 4)])).spawns = 1 ∧
    (relaunch defaultTarget MonitorOptions.new
        (okEnv (.exited 0) :: [okEnv (.exited 4)])).fail_count = 0 ∧
    processExitCode (.ok .ok) = 0 :=
  claim10_clean_first_exit defaultTarget MonitorOptions.new rfl
    (okEnv (.exited 0)) [okEnv (.exited 4)] (by decide) rfl

end Relaunch
